import Mathlib

/-!
# Verification of the `chloop` dispatch loop

Shallow embedding of `src/chloop/__init__.py` (class `GetCharLoop`): the
character-driven dispatch loop, command resolution via `getattr`, the
invocation wrapper with its success/error record construction, and the
Redis-backed log sink modelled as a trace of effects.

External collaborators (the terminal character source, `click` prompts,
the Redis client, `time`/`socket`) are modelled at their interface
boundary: a step of the loop consumes one character-read event plus an
environment (the line the user would type, the clock, the host name) and
emits a list of observable effects (prints, `add_dict` appends, `zadd`).
-/

namespace Chloop

/-- Python values that the modelled actions can return
(`None`, strings, numbers, lists). -/
inductive Value where
  | none : Value
  | str : String → Value
  | num : Nat → Value
  deriving DecidableEq, Repr

/-- A Python exception, abstracted to its type name
(e.g. `"exceptions.ZeroDivisionError"`) and message. -/
structure PyExc where
  etype : String
  evalue : String
  deriving DecidableEq, Repr

/-- A value stored in one field of a record dict handed to the log sink. -/
inductive RVal where
  | s : String → RVal
  | strList : List String → RVal
  | v : Value → RVal
  | num : Nat → RVal
  deriving DecidableEq, Repr

/-- A record dict, as built by `__call__` and passed to `_redis_add`:
an association list of field names to field values, in source order. -/
abbrev RecordDict := List (String × RVal)

/-- An observable effect of one loop step. -/
inductive Effect where
  /-- `print <text>` to the terminal. -/
  | print : String → Effect
  /-- `self._redis_add(keypart, somedict, indexfields)`: append one record
  dict to the log sink under the given key part. -/
  | redisAdd : String → RecordDict → List String → Effect
  /-- `self._redis.zadd(key, epoch, member)`: add a note to the
  session-notes sorted set. -/
  | zadd : String → Nat → String → Effect
  /-- `import ipdb; ipdb.set_trace()`: hand control to the external
  interactive debugger session. -/
  | externalSession : Effect
  deriving DecidableEq, Repr

/-- Is the effect an append of a record dict to the log sink? -/
def Effect.isRedisAdd : Effect → Bool
  | .redisAdd _ _ _ => true
  | _ => false

/-- A callable attribute of the loop instance (a method or a
monkeypatched function), together with the introspection data
(`__name__`, `__doc__`, `__module__`) that the error handler reads.
Running it yields its own side effects and either a return value or a
raised exception. -/
structure Action where
  run : List String → List Effect × Except PyExc Value
  fname : String
  doc : String
  modName : String

/-- One entry of `chfunc_dict`: a zero-argument callable plus help text. -/
structure Hotkey where
  fn : Unit → List Effect × Except PyExc Value
  help : String

/-- The state a `GetCharLoop` instance carries through the loop:
its attributes (for `getattr` resolution), the hotkey dict, the
do-not-log command list set in `__init__`, the prompt and the
session-notes key derived from the Redis base key name. -/
structure GetCharLoop where
  attrs : List (String × Action)
  chfunc_dict : List (String × Hotkey)
  dontLog : List String
  prompt : String
  session_notes_key : String

/-- `getattr(self, cmd)` restricted to the modelled attributes:
first binding for the name wins (instance dict before class dict). -/
def getattr? (g : GetCharLoop) (name : String) : Option Action :=
  (g.attrs.find? (fun p => p.1 == name)).map Prod.snd

/-- `ch in self._chfunc_dict` / `self._chfunc_dict[ch]`. -/
def hotLookup (g : GetCharLoop) (ch : String) : Option Hotkey :=
  (g.chfunc_dict.find? (fun p => p.1 == ch)).map Prod.snd

/-- `name.startswith('_')`: does the name begin with an underscore? -/
def startsWithUnderscore (n : String) : Bool :=
  n.data.head? == some '_'

/-- The names `inspect.getmembers` retains in `_method_names`
(lines 52–55): attribute names not starting with `'_'`. -/
def methodNames (g : GetCharLoop) : List String :=
  (g.attrs.map Prod.fst).filter (fun n => !startsWithUnderscore n)

/-- Worker for `pySplit`: walk the characters, accumulating the current
token (reversed); whitespace closes the token, if any. -/
def pySplitAux : List Char → List Char → List String
  | [], acc => if acc.isEmpty then [] else [String.mk acc.reverse]
  | c :: cs, acc =>
    if c.isWhitespace then
      if acc.isEmpty then pySplitAux cs []
      else String.mk acc.reverse :: pySplitAux cs []
    else pySplitAux cs (c :: acc)

/-- Python's `str.split()` with no argument: split on runs of
whitespace, discarding empty pieces (a whitespace-only string splits to
the empty list). -/
def pySplit (s : String) : List String :=
  pySplitAux s.data []

/-- Python's `repr` of a string, abstracted (quotes around the text). -/
def pyReprStr (s : String) : String := "'" ++ s ++ "'"

/-- Python's `repr` of a list of strings. -/
def pyReprStrList (xs : List String) : String :=
  "[" ++ String.intercalate ", " (xs.map pyReprStr) ++ "]"

/-- `traceback.format_exc()`: the formatted stack trace of the current
exception. Always begins with the fixed traceback header line. -/
def format_exc (e : PyExc) : String :=
  "Traceback (most recent call last):\n" ++ e.etype ++ ": " ++ e.evalue

/-- `repr(etype)` for an (old-style printed) exception class in Python 2. -/
def reprEType (t : String) : String := "<type " ++ pyReprStr t ++ ">"

/-- `repr(evalue)` for an exception instance. -/
def reprEValue (e : PyExc) : String :=
  e.etype ++ "(" ++ pyReprStr e.evalue ++ ",)"

/-- `'=' * 70`, the banner printed before an error report. -/
def sep70 : String := String.mk (List.replicate 70 '=')

/-- The `'cmd: {}\nargs: {}'` line printed after the traceback. -/
def cmdArgsLine (cmd : String) (args : List String) : String :=
  "cmd: " ++ pyReprStr cmd ++ "\nargs: " ++ pyReprStrList args

/-- `functools.partial` instances have no `__name__`; `getattr` with the
`''` default yields the empty string. -/
def partialName : String := ""

/-- `getattr(partial_obj, '__doc__', '')`: the `functools.partial` class
docstring, inherited by the instance. -/
def partialDoc : String :=
  "partial(func, *args, **keywords) - new function with partial application of the given arguments and keywords."

/-- `getattr(partial_obj, '__module__', '')` resolves on the class. -/
def partialModule : String := "functools"

/-- The environment an iteration of the loop reads from its external
collaborators: the line `click.prompt` would return (`none` models a
`click.exceptions.Abort`), `time.time()`, `socket.getfqdn()` and
`time.strftime('%Y_%m%d-%a-%H%M%S', time.localtime(·))`. -/
structure Env where
  lineInput : Option String
  epoch : Nat
  fqdn : String
  strftime : Nat → String

/-- One character-read event: either the `EOFError`/`KeyboardInterrupt`
signal raised by `click.getchar()`, or the string it returned (possibly
two characters for an escape artifact). -/
inductive CharRead where
  | signal : CharRead
  | ch : String → CharRead
  deriving DecidableEq, Repr

/-- How one iteration of the `while True` body ends: `break` out of the
loop, fall through to the next iteration, or an uncaught exception
escaping `__call__`. -/
inductive StepOutcome where
  | stopped : StepOutcome
  | cont : StepOutcome
  | crashed : PyExc → StepOutcome
  deriving DecidableEq, Repr

/-- The `IndexError` raised by `user_input.split()[0]` on an empty list. -/
def indexError : PyExc :=
  { etype := "exceptions.IndexError", evalue := "list index out of range" }

/-- The record dict built on the success path of `__call__`
(lines 234–238): `{'cmd': cmd, 'args': args, 'value': value}`. -/
def successRecord (cmd : String) (args : List String) (v : Value) : RecordDict :=
  [("cmd", RVal.s cmd), ("args", RVal.strList args), ("value", RVal.v v)]

/-- The record dict built in the `except:` handler of `__call__`
(lines 243–256). `cmd_func` is the bound method itself when `args` is
empty and a `functools.partial` wrapping it otherwise, which decides
what `getattr(cmd_func, '__name__'/'__doc__'/'__module__', '')` see. -/
def errorRecord (args : List String) (a : Action) (env : Env)
    (e : PyExc) : RecordDict :=
  [("traceback_string", RVal.s (format_exc e)),
   ("error_type", RVal.s (reprEType e.etype)),
   ("error_value", RVal.s (reprEValue e)),
   ("func", RVal.s (if args.isEmpty then a.fname else partialName)),
   ("func_doc", RVal.s (if args.isEmpty then a.doc else partialDoc)),
   ("func_module", RVal.s (if args.isEmpty then a.modName else partialModule)),
   ("func_args", RVal.s (pyReprStrList args)),
   ("fqdn", RVal.s env.fqdn),
   ("time_epoch", RVal.num env.epoch),
   ("time_string", RVal.s (env.strftime env.epoch))]

/-- One iteration of the `while True` body of `GetCharLoop.__call__`
(lines 190–267), from the `click.getchar()` read to the bottom of the
loop: returns how the iteration ends and the effects it emits, in order.
Branches, in source order: getchar signal → `break`; `ch` in
`chfunc_dict` → print it and call the hotkey (uncaught on raise);
`'-'` → note sub-mode (`zadd`, or abort); `':'` → command sub-mode
(abort, `split()[0]` on an empty split, the `ipdb` special case,
`getattr` resolution, then the invoke/log wrapper); otherwise print the
`repr`/`ord` of the character. -/
def loopStep (g : GetCharLoop) (env : Env) (cr : CharRead) :
    StepOutcome × List Effect :=
  match cr with
  | .signal => (.stopped, [])
  | .ch s =>
    match hotLookup g s with
    | some hk =>
      match hk.fn () with
      | (fx, .ok _) => (.cont, Effect.print s :: fx)
      | (fx, .error e) => (.crashed e, Effect.print s :: fx)
    | none =>
      if s == "-" then
        match env.lineInput with
        | none => (.cont, [Effect.print ""])
        | some line =>
          (.cont, [Effect.zadd g.session_notes_key env.epoch line])
      else if s == ":" then
        match env.lineInput with
        | none => (.cont, [Effect.print ""])
        | some line =>
          match pySplit line with
          | [] => (.crashed indexError, [])
          | cmd :: args =>
            if cmd == "ipdb" then (.cont, [Effect.externalSession])
            else
              match getattr? g cmd with
              | none => (.cont, [Effect.print "invalid command"])
              | some a =>
                match a.run args with
                | (fx, .ok v) =>
                  if g.dontLog.contains cmd then (.cont, fx)
                  else
                    (.cont, fx ++
                      [Effect.redisAdd "cmd_results"
                        (successRecord cmd args v) ["cmd"]])
                | (fx, .error e) =>
                  (.cont, fx ++
                    [Effect.print sep70,
                     Effect.print (format_exc e),
                     Effect.print (cmdArgsLine cmd args),
                     Effect.redisAdd "error"
                       (errorRecord args a env e) ["func", "error_type"]])
      else
        match s.toList with
        | [c] => (.cont, [Effect.print (pyReprStr s ++ " " ++ toString c.toNat)])
        | _ => (.cont, [Effect.print (pyReprStr s)])

/-- How a whole run of the loop over a scripted list of reads ends:
still awaiting input when the script is exhausted, `break` taken, or an
uncaught exception escaped `__call__`. -/
inductive LoopResult where
  | pending : LoopResult
  | stopped : LoopResult
  | crashed : PyExc → LoopResult
  deriving DecidableEq, Repr

/-- Run the loop over a script of (environment, character-read) events. -/
def runLoop (g : GetCharLoop) : List (Env × CharRead) → LoopResult
  | [] => .pending
  | (env, cr) :: rest =>
    match loopStep g env cr with
    | (.stopped, _) => .stopped
    | (.crashed e, _) => .crashed e
    | (.cont, _) => runLoop g rest

/-- `self._DONT_LOG_CMDS`, the literal list set in `__init__`
(lines 47–50). -/
def DONT_LOG_CMDS : List String :=
  ["errors", "help", "history", "indices", "session_keys", "session_notes"]

/-- The cumulative class docstring `_class_doc` composes (the query
contents are the class's own `__doc__`; its exact text is presentation
only). -/
def classDocText : String :=
  "Loop forever, receiving character input from user and performing actions\n"

/-- The text `docstrings` composes from `_class_doc`, `_method_docs` and
`_chfunc_dict` (presentation only; composed from external introspection
state). -/
def docstringsText : String :=
  "method docstrings listing\n"

/-- `GetCharLoop.session_keys`: scans Redis for this session's data keys,
pretty-prints and returns them. The Redis scan is external; modelled as
its terminal output plus a normal return. -/
def session_keys_action : Action :=
  { run := fun _ => ([Effect.print "Redis keys for session"], .ok Value.none),
    fname := "session_keys",
    doc := "Display/return a list of keys (and their types) created for this session",
    modName := "chloop" }

/-- `GetCharLoop.indices`: scans Redis for index keys, pretty-prints and
returns them. The Redis scan is external. -/
def indices_action : Action :=
  { run := fun _ => ([Effect.print "Redis indices"], .ok Value.none),
    fname := "indices",
    doc := "Display/return a list of Redis indices (and their types)",
    modName := "chloop" }

/-- `GetCharLoop.session_notes`: renders the notes sorted set as a
string. The Redis read is external. -/
def session_notes_action : Action :=
  { run := fun _ => ([Effect.print "Notes for session"], .ok (Value.str "")),
    fname := "session_notes",
    doc := "Return a string containing any notes made for GetCharLoop session 'key'",
    modName := "chloop" }

/-- `GetCharLoop.history` (lines 169–176): prints the `cmd_results`
records of this session; returns `None`. The Redis scan is external. -/
def history_action : Action :=
  { run := fun _ => ([Effect.print "Command history for session"], .ok Value.none),
    fname := "history",
    doc := "Display command history for current session",
    modName := "chloop" }

/-- `GetCharLoop.errors` (lines 178–188): prints the `error` records of
this session; returns `None`. The Redis scan is external. -/
def errors_action : Action :=
  { run := fun _ => ([Effect.print "Command errors for session"], .ok Value.none),
    fname := "errors",
    doc := "Display command errors for current session",
    modName := "chloop" }

/-- `GetCharLoop.docstrings` (lines 290–310): prints and returns the
composed docstring listing. -/
def docstrings_action : Action :=
  { run := fun _ => ([Effect.print docstringsText], .ok (Value.str docstringsText)),
    fname := "docstrings",
    doc := "Print/return the docstrings of methods defined on this class",
    modName := "chloop" }

/-- `GetCharLoop.ipdb` (lines 269–278): a `pass` body, present only for
its docstring; `':ipdb'` is intercepted before resolution so it is never
called by the loop. -/
def ipdb_action : Action :=
  { run := fun _ => ([], .ok Value.none),
    fname := "ipdb",
    doc := "Start ipdb (debugger). To continue back to the input loop, use 'c'",
    modName := "chloop" }

/-- `GetCharLoop._class_doc` (lines 280–288): returns the cumulative
class docstring; an internal (underscore-prefixed) but perfectly
`getattr`-resolvable callable attribute. -/
def class_doc_action : Action :=
  { run := fun _ => ([], .ok (Value.str classDocText)),
    fname := "_class_doc",
    doc := "Return a cumulative docstring for class and parent classes",
    modName := "chloop" }

/-- The callable attributes every `GetCharLoop` instance carries
(methods of the class). The instance also carries further internal
attributes (`_redis_fullkey`, `_redis_add` and the `_`-prefixed data
fields); one representative internal callable (`_class_doc`) is enough
for the claims, and omitting the others only removes resolvable names. -/
def baseAttrs : List (String × Action) :=
  [("session_keys", session_keys_action),
   ("indices", indices_action),
   ("session_notes", session_notes_action),
   ("history", history_action),
   ("errors", errors_action),
   ("docstrings", docstrings_action),
   ("ipdb", ipdb_action),
   ("_class_doc", class_doc_action)]

/-- Construct a loop instance as `__init__` does: subclass /
monkeypatched attributes shadow the class's own (first binding wins),
`chfunc_dict` comes from the kwargs, `_DONT_LOG_CMDS` is the fixed
literal, and the session-notes key is derived from the external
`next_object_id` result. -/
def mkLoop (extra : List (String × Action)) (hot : List (String × Hotkey)) :
    GetCharLoop :=
  { attrs := extra ++ baseAttrs,
    chfunc_dict := hot,
    dontLog := DONT_LOG_CMDS,
    prompt := "\n> ",
    session_notes_key := "GetCharLoop:1:notes0" }

/-- A plain instance with no subclass additions and no hotkeys. -/
def baseLoop : GetCharLoop := mkLoop [] []

/-- The spec's `echo(*args)` example command: returns `' '.join(args)`. -/
def echo_action : Action :=
  { run := fun args => ([], .ok (Value.str (String.intercalate " " args))),
    fname := "echo", doc := "join args", modName := "examples" }

/-- An instance extended with the `echo` example command. -/
def echoLoop : GetCharLoop := mkLoop [("echo", echo_action)] []

/-- The `ZeroDivisionError` of the spec's `boom()` example. -/
def zeroDivExc : PyExc :=
  { etype := "exceptions.ZeroDivisionError",
    evalue := "integer division or modulo by zero" }

/-- The spec's `boom()` example command: divides by zero. -/
def boom_action : Action :=
  { run := fun _ => ([], .error zeroDivExc),
    fname := "boom", doc := "raise exception", modName := "examples" }

/-- An instance extended with the `boom` example command. -/
def boomLoop : GetCharLoop := mkLoop [("boom", boom_action)] []

/-- A hotkey whose callable raises (the `lame`-style failing action of
`examples/mine.py` bound to a key). -/
def boomHotkey : Hotkey :=
  { fn := fun _ => ([], .error zeroDivExc), help := "raise exception" }

/-- An instance with the raising callable bound to the `'x'` hotkey. -/
def hotLoop : GetCharLoop := mkLoop [] [("x", boomHotkey)]

/-- A deterministic test environment around a given line input. -/
def mkEnv (line : Option String) : Env :=
  { lineInput := line, epoch := 1234, fqdn := "testhost",
    strftime := fun n => "1970_0101-Thu-0020." ++ toString n }

/-- `traceback.format_exc()` output always carries the fixed header, so
it is never the empty string. -/
lemma format_exc_ne_empty (e : PyExc) : format_exc e ≠ "" := by
  unfold format_exc
  intro h
  have hd := congrArg String.data h
  simp [String.data_append] at hd

/-- C1: the claim says an unknown command name appends an error Record
with `error_type = 'invalid command'`. The code (lines 222–229) catches
the `AttributeError` from `getattr`, prints `'invalid command'` and
`continue`s: no record of any kind reaches the log sink. Concretely,
typing `:nope` at a plain instance appends nothing (and the loop goes on
awaiting input). -/
theorem C1_counterexample :
    (loopStep baseLoop (mkEnv (some "nope")) (CharRead.ch ":")).2.filter
      Effect.isRedisAdd = [] ∧
    (loopStep baseLoop (mkEnv (some "nope")) (CharRead.ch ":")).1 =
      StepOutcome.cont := by
  decide

/-- C1 (amended): for every typed command line whose first token is not
an attribute of the instance, the loop prints `'invalid command'`,
appends no record, and returns to awaiting the next keystroke. -/
theorem C1_unknown_command
    (g : GetCharLoop) (env : Env) (line cmd : String) (args : List String)
    (hot : hotLookup g ":" = none)
    (hline : env.lineInput = some line)
    (hsplit : pySplit line = cmd :: args)
    (hcmd : cmd ≠ "ipdb")
    (hres : getattr? g cmd = none) :
    loopStep g env (CharRead.ch ":") =
      (StepOutcome.cont, [Effect.print "invalid command"]) := by
  simp only [loopStep, hot, hline, hsplit, hres]
  simp [hcmd]

/-- C1 witness: `:nope` at a plain instance. -/
theorem C1_unknown_command_witness :
    loopStep baseLoop (mkEnv (some "nope")) (CharRead.ch ":") =
      (StepOutcome.cont, [Effect.print "invalid command"]) :=
  C1_unknown_command baseLoop (mkEnv (some "nope")) "nope" "nope" []
    rfl rfl (by decide) (by decide) rfl

/-- C2: a resolved command that raises is fully captured by the bare
`except:` handler (lines 240–260): the loop continues, and exactly one
error record is appended whose fields hold the non-empty
`traceback.format_exc()` text, `repr` of the exception type and value,
the callable's `__name__`/`__doc__`/`__module__` (as seen through the
`functools.partial` wrapper when arguments were supplied), `repr(args)`,
`socket.getfqdn()` and the timestamp in epoch and `strftime` form — see
`errorRecord`. The exception never escapes the handler. -/
theorem C2_action_failure_logged
    (g : GetCharLoop) (env : Env) (line cmd : String) (args : List String)
    (a : Action) (fx : List Effect) (e : PyExc)
    (hot : hotLookup g ":" = none)
    (hline : env.lineInput = some line)
    (hsplit : pySplit line = cmd :: args)
    (hcmd : cmd ≠ "ipdb")
    (hres : getattr? g cmd = some a)
    (hrun : a.run args = (fx, Except.error e)) :
    loopStep g env (CharRead.ch ":") =
      (StepOutcome.cont, fx ++
        [Effect.print sep70,
         Effect.print (format_exc e),
         Effect.print (cmdArgsLine cmd args),
         Effect.redisAdd "error" (errorRecord args a env e)
           ["func", "error_type"]]) ∧
    format_exc e ≠ "" ∧
    (fx.filter Effect.isRedisAdd = [] →
      (loopStep g env (CharRead.ch ":")).2.filter Effect.isRedisAdd =
        [Effect.redisAdd "error" (errorRecord args a env e)
          ["func", "error_type"]]) := by
  have hstep : loopStep g env (CharRead.ch ":") =
      (StepOutcome.cont, fx ++
        [Effect.print sep70,
         Effect.print (format_exc e),
         Effect.print (cmdArgsLine cmd args),
         Effect.redisAdd "error" (errorRecord args a env e)
           ["func", "error_type"]]) := by
    simp only [loopStep, hot, hline, hsplit, hres, hrun]
    simp [hcmd]
  refine ⟨hstep, format_exc_ne_empty e, fun hfx => ?_⟩
  rw [hstep]
  simp [List.filter_append, hfx, Effect.isRedisAdd]

/-- C2 witness: the spec's `boom()` example (a `ZeroDivisionError`). -/
theorem C2_action_failure_logged_witness :
    loopStep boomLoop (mkEnv (some "boom")) (CharRead.ch ":") =
      (StepOutcome.cont,
        [Effect.print sep70,
         Effect.print (format_exc zeroDivExc),
         Effect.print (cmdArgsLine "boom" []),
         Effect.redisAdd "error"
           (errorRecord [] boom_action (mkEnv (some "boom")) zeroDivExc)
           ["func", "error_type"]]) ∧
    format_exc zeroDivExc ≠ "" ∧
    ([].filter Effect.isRedisAdd = ([] : List Effect) →
      (loopStep boomLoop (mkEnv (some "boom")) (CharRead.ch ":")).2.filter
        Effect.isRedisAdd =
        [Effect.redisAdd "error"
          (errorRecord [] boom_action (mkEnv (some "boom")) zeroDivExc)
          ["func", "error_type"]]) :=
  C2_action_failure_logged boomLoop (mkEnv (some "boom")) "boom" "boom" []
    boom_action [] zeroDivExc rfl rfl (by decide) (by decide) rfl rfl

/-- C3: a resolved command that returns normally is logged as exactly
one `cmd_results` record whose `args` field is the typed argument list
in order (lines 231–239) — unless its name is in `_DONT_LOG_CMDS`, in
which case the call still happens (its own effects `fx` are emitted and
its value is returned to the loop) but nothing is appended. -/
theorem C3_success_logged_unless_dontlog
    (g : GetCharLoop) (env : Env) (line cmd : String) (args : List String)
    (a : Action) (fx : List Effect) (v : Value)
    (hot : hotLookup g ":" = none)
    (hline : env.lineInput = some line)
    (hsplit : pySplit line = cmd :: args)
    (hcmd : cmd ≠ "ipdb")
    (hres : getattr? g cmd = some a)
    (hrun : a.run args = (fx, Except.ok v)) :
    loopStep g env (CharRead.ch ":") =
      (StepOutcome.cont,
        if g.dontLog.contains cmd then fx
        else fx ++
          [Effect.redisAdd "cmd_results"
            [("cmd", RVal.s cmd), ("args", RVal.strList args),
             ("value", RVal.v v)] ["cmd"]]) := by
  simp only [loopStep, hot, hline, hsplit, hres, hrun, successRecord]
  simp [hcmd]
  split <;> rfl

/-- C3 witness: the spec's `echo` example, `:echo a b`. -/
theorem C3_success_logged_unless_dontlog_witness :
    loopStep echoLoop (mkEnv (some "echo a b")) (CharRead.ch ":") =
      (StepOutcome.cont,
        [Effect.redisAdd "cmd_results"
          [("cmd", RVal.s "echo"), ("args", RVal.strList ["a", "b"]),
           ("value", RVal.v (Value.str "a b"))] ["cmd"]]) :=
  (C3_success_logged_unless_dontlog echoLoop (mkEnv (some "echo a b"))
    "echo a b" "echo" ["a", "b"] echo_action [] (Value.str "a b")
    rfl rfl (by decide) (by decide) rfl rfl).trans (by decide)

/-- C4: the claim says records carry a `status` field (`status: ok` /
`status: error`). Neither dict built by `__call__` has one: the success
dict (lines 234–238) holds exactly `cmd`, `args`, `value` — shown here
on the spec's own `:echo a b` example — and the error dict
(lines 243–256) holds the error fields but no `status` either; success
and error are distinguished by the key part (`'cmd_results'` vs
`'error'`) passed to `_redis_add`, not by a field. -/
theorem C4_counterexample :
    (loopStep echoLoop (mkEnv (some "echo a b")) (CharRead.ch ":")).2 =
      [Effect.redisAdd "cmd_results"
        (successRecord "echo" ["a", "b"] (Value.str "a b")) ["cmd"]] ∧
    "status" ∉ (successRecord "echo" ["a", "b"] (Value.str "a b")).map
      Prod.fst ∧
    "status" ∉ (errorRecord [] boom_action (mkEnv (some "boom"))
      zeroDivExc).map Prod.fst := by
  decide

/-- C4 (amended): every record handed to the log sink has stable field
names, but no `status` field: a success record's fields are exactly
`cmd`, `args`, `value`, and an error record's are exactly
`traceback_string`, `error_type`, `error_value`, `func`, `func_doc`,
`func_module`, `func_args`, `fqdn`, `time_epoch`, `time_string`;
ok-vs-error is encoded in the `_redis_add` key part instead. -/
theorem C4_record_field_names :
    (∀ (cmd : String) (args : List String) (v : Value),
      (successRecord cmd args v).map Prod.fst = ["cmd", "args", "value"] ∧
      "status" ∉ (successRecord cmd args v).map Prod.fst) ∧
    (∀ (args : List String) (a : Action) (env : Env) (e : PyExc),
      (errorRecord args a env e).map Prod.fst =
        ["traceback_string", "error_type", "error_value", "func",
         "func_doc", "func_module", "func_args", "fqdn", "time_epoch",
         "time_string"] ∧
      "status" ∉ (errorRecord args a env e).map Prod.fst) := by
  refine ⟨fun cmd args v => ⟨rfl, ?_⟩, fun args a env e => ⟨rfl, ?_⟩⟩ <;>
    simp [successRecord, errorRecord]

/-- C5: the claim says `docstrings`, `shortcuts`, `history`, `errors`
all exist and none of them is ever logged. Two failures: there is no
`shortcuts` attribute at all (resolution fails), and `docstrings` is
not in `_DONT_LOG_CMDS` (lines 47–50), so `:docstrings` appends a
`cmd_results` record. -/
theorem C5_counterexample :
    getattr? baseLoop "shortcuts" = none ∧
    (loopStep baseLoop (mkEnv (some "docstrings")) (CharRead.ch ":")).2.filter
      Effect.isRedisAdd =
      [Effect.redisAdd "cmd_results"
        [("cmd", RVal.s "docstrings"), ("args", RVal.strList []),
         ("value", RVal.v (Value.str docstringsText))] ["cmd"]] :=
  ⟨rfl, by decide⟩

/-- C5 (amended): `docstrings`, `history` and `errors` exist on every
instance however it is extended (subclass attributes only shadow, never
remove); `history` and `errors` are in `_DONT_LOG_CMDS`, so a normal
completion of a do-not-log command emits only the command's own effects
and appends nothing; but `docstrings` is not in `_DONT_LOG_CMDS` and
there is no `shortcuts` attribute. -/
theorem C5_builtin_commands :
    (∀ (extra : List (String × Action)) (hot : List (String × Hotkey)),
      (getattr? (mkLoop extra hot) "docstrings").isSome = true ∧
      (getattr? (mkLoop extra hot) "history").isSome = true ∧
      (getattr? (mkLoop extra hot) "errors").isSome = true) ∧
    ("history" ∈ DONT_LOG_CMDS ∧ "errors" ∈ DONT_LOG_CMDS ∧
      "docstrings" ∉ DONT_LOG_CMDS ∧ getattr? baseLoop "shortcuts" = none) ∧
    (∀ (g : GetCharLoop) (env : Env) (line cmd : String)
      (args : List String) (a : Action) (fx : List Effect) (v : Value),
      hotLookup g ":" = none → env.lineInput = some line →
      pySplit line = cmd :: args → cmd ≠ "ipdb" →
      g.dontLog.contains cmd = true → getattr? g cmd = some a →
      a.run args = (fx, Except.ok v) →
      loopStep g env (CharRead.ch ":") = (StepOutcome.cont, fx)) := by
  refine ⟨fun extra hot => ?_, ⟨by decide, by decide, by decide, rfl⟩,
    fun g env line cmd args a fx v hot hline hsplit hcmd hdl hres hrun => ?_⟩
  · refine ⟨?_, ?_, ?_⟩ <;>
    · simp only [getattr?, mkLoop, List.find?_append, Option.isSome_map]
      cases h : (extra.find? fun p => p.1 == _) <;> simp [h, baseAttrs]
  · simp only [loopStep, hot, hline, hsplit, hres, hrun]
    simp [hcmd]
    simpa using hdl

/-- C5 witness: `history` exists on the plain instance and `:errors`
(a do-not-log builtin) emits only its own printout, appending nothing. -/
theorem C5_builtin_commands_witness :
    (getattr? (mkLoop [] []) "history").isSome = true ∧
    loopStep baseLoop (mkEnv (some "errors")) (CharRead.ch ":") =
      (StepOutcome.cont, [Effect.print "Command errors for session"]) :=
  ⟨(C5_builtin_commands.1 [] []).2.1,
   C5_builtin_commands.2.2 baseLoop (mkEnv (some "errors")) "errors"
     "errors" [] errors_action [Effect.print "Command errors for session"]
     Value.none rfl rfl (by decide) (by decide) (by decide) rfl rfl⟩

/-- C6: the claim says no exception thrown by a registered action —
including a hotkey's callable — can end the loop. The hotkey branch
(lines 198–200) calls `self._chfunc_dict[ch][0]()` outside any
`try`: a raising hotkey callable escapes `__call__` and ends the loop,
on a script that contains no end-of-input or interrupt signal. -/
theorem C6_counterexample :
    runLoop hotLoop [(mkEnv none, CharRead.ch "x")] =
      LoopResult.crashed zeroDivExc ∧
    CharRead.ch "x" ≠ CharRead.signal := by
  decide

/-- C6 (amended): a signal while awaiting a keystroke stops the loop;
an exception from a typed resolved command never ends the loop (the
dispatch of a well-formed `:`-line always falls through to the next
keystroke, whatever the action does); and a cancel during `:`- or
`-`-line composition aborts only that line (prints a blank line,
continues). But an exception from a hotkey's callable is uncaught and
does end the loop (see the counterexample). -/
theorem C6_termination_policy :
    (∀ (g : GetCharLoop) (env : Env),
      loopStep g env CharRead.signal = (StepOutcome.stopped, [])) ∧
    (∀ (g : GetCharLoop) (env : Env) (line cmd : String)
      (args : List String),
      hotLookup g ":" = none → env.lineInput = some line →
      pySplit line = cmd :: args → cmd ≠ "ipdb" →
      (loopStep g env (CharRead.ch ":")).1 = StepOutcome.cont) ∧
    (∀ (g : GetCharLoop) (env : Env), hotLookup g ":" = none →
      env.lineInput = none →
      loopStep g env (CharRead.ch ":") =
        (StepOutcome.cont, [Effect.print ""])) ∧
    (∀ (g : GetCharLoop) (env : Env), hotLookup g "-" = none →
      env.lineInput = none →
      loopStep g env (CharRead.ch "-") =
        (StepOutcome.cont, [Effect.print ""])) := by
  refine ⟨fun g env => rfl,
    fun g env line cmd args hot hline hsplit hcmd => ?_,
    fun g env hot hline => ?_, fun g env hot hline => ?_⟩
  · simp only [loopStep, hot, hline, hsplit]
    cases hres : getattr? g cmd with
    | none => simp [hcmd, hres]
    | some a =>
      rcases hrun : a.run args with ⟨fx, e | v⟩
      · simp [hcmd, hres, hrun]
      · simp [hcmd, hres, hrun]
        split <;> simp
  · simp [loopStep, hot, hline]
  · simp [loopStep, hot, hline]

/-- C6 witness: a signal stops the loop; `:boom` (a raising command)
still falls through; aborted `:`- and `-`-lines just continue. -/
theorem C6_termination_policy_witness :
    loopStep baseLoop (mkEnv none) CharRead.signal =
      (StepOutcome.stopped, []) ∧
    (loopStep boomLoop (mkEnv (some "boom")) (CharRead.ch ":")).1 =
      StepOutcome.cont ∧
    loopStep baseLoop (mkEnv none) (CharRead.ch ":") =
      (StepOutcome.cont, [Effect.print ""]) ∧
    loopStep baseLoop (mkEnv none) (CharRead.ch "-") =
      (StepOutcome.cont, [Effect.print ""]) :=
  ⟨C6_termination_policy.1 baseLoop (mkEnv none),
   C6_termination_policy.2.1 boomLoop (mkEnv (some "boom")) "boom" "boom"
     [] rfl rfl (by decide) (by decide),
   C6_termination_policy.2.2.1 baseLoop (mkEnv none) rfl rfl,
   C6_termination_policy.2.2.2 baseLoop (mkEnv none) rfl rfl⟩

/-- C7: a command line whose first token is exactly `ipdb` is special
cased (lines 218–220) before `getattr` resolution — the theorem holds
for every instance, whatever its attributes bind `ipdb` to — hands
control to the external interactive session, appends no record, and the
loop falls through to the next keystroke. -/
theorem C7_ipdb_bypass
    (g : GetCharLoop) (env : Env) (line : String) (rest : List String)
    (hot : hotLookup g ":" = none)
    (hline : env.lineInput = some line)
    (hsplit : pySplit line = "ipdb" :: rest) :
    loopStep g env (CharRead.ch ":") =
      (StepOutcome.cont, [Effect.externalSession]) := by
  simp only [loopStep, hot, hline, hsplit]
  simp

/-- C7 witness: `:ipdb` at a plain instance. -/
theorem C7_ipdb_bypass_witness :
    loopStep baseLoop (mkEnv (some "ipdb")) (CharRead.ch ":") =
      (StepOutcome.cont, [Effect.externalSession]) :=
  C7_ipdb_bypass baseLoop (mkEnv (some "ipdb")) "ipdb" [] rfl rfl
    (by decide)

/-- An association-list name search succeeds exactly when the name is
among the keys. -/
lemma find?_name_isSome (attrs : List (String × Action)) (cmd : String) :
    (attrs.find? (fun p => p.1 == cmd)).isSome = true ↔
      cmd ∈ attrs.map Prod.fst := by
  induction attrs with
  | nil => simp
  | cons p l ih =>
    by_cases hp : p.1 = cmd
    · have hb : (p.1 == cmd) = true := by simp [hp]
      simp [List.find?_cons, hb, hp]
    · have hb : (p.1 == cmd) = false := by simp [hp]
      have hp' : ¬(cmd = p.1) := fun h => hp h.symm
      simp [List.find?_cons, hb, hp', ih]

/-- C8: the claim says resolution succeeds exactly for the introspected
non-internal names and fails for internal `_`-prefixed ones. Resolution
is `getattr` (lines 222–229), not a lookup in `_method_names`:
`_class_doc` starts with `'_'` and is excluded from `_method_names`,
yet `:_class_doc` resolves, runs, and is even logged to `cmd_results`. -/
theorem C8_counterexample :
    "_class_doc" ∉ methodNames baseLoop ∧
    startsWithUnderscore "_class_doc" = true ∧
    (getattr? baseLoop "_class_doc").isSome = true ∧
    loopStep baseLoop (mkEnv (some "_class_doc")) (CharRead.ch ":") =
      (StepOutcome.cont,
        [Effect.redisAdd "cmd_results"
          [("cmd", RVal.s "_class_doc"), ("args", RVal.strList []),
           ("value", RVal.v (Value.str classDocText))] ["cmd"]]) :=
  ⟨by decide, by decide, rfl, by decide⟩

/-- C8 (amended): command-name resolution is plain attribute lookup: it
succeeds for exactly the names bound as attributes of the instance —
internal underscore-prefixed ones included — and takes the
unknown-command path only for names bound to no attribute. -/
theorem C8_resolution_is_attr_lookup
    (g : GetCharLoop) (cmd : String) :
    (getattr? g cmd).isSome = true ↔ cmd ∈ g.attrs.map Prod.fst := by
  unfold getattr?
  rw [← find?_name_isSome g.attrs cmd]
  cases g.attrs.find? (fun p => p.1 == cmd) <;> simp

/-- C9: the claim says `-` appends a `status=ok, cmd='-'` Record with
the note text. The note branch (lines 201–208) performs a
`zadd(self._session_notes_key, epoch, user_input)` into a Redis sorted
set instead: no record dict of any kind is appended, and there is no
input-hook path in this revision. -/
theorem C9_counterexample :
    loopStep baseLoop (mkEnv (some "hello note")) (CharRead.ch "-") =
      (StepOutcome.cont,
        [Effect.zadd "GetCharLoop:1:notes0" 1234 "hello note"]) ∧
    (loopStep baseLoop (mkEnv (some "hello note")) (CharRead.ch "-")).2.filter
      Effect.isRedisAdd = [] := by
  decide

/-- C9 (amended): when `-` is read (and `-` is not a hotkey), the loop
reads one full line and adds the raw text to the session-notes sorted
set, scored by the epoch read before prompting; no record dict is
appended and the loop continues. -/
theorem C9_note_mode
    (g : GetCharLoop) (env : Env) (line : String)
    (hot : hotLookup g "-" = none)
    (hline : env.lineInput = some line) :
    loopStep g env (CharRead.ch "-") =
      (StepOutcome.cont,
        [Effect.zadd g.session_notes_key env.epoch line]) := by
  simp [loopStep, hot, hline]

/-- C9 witness: a note at a plain instance. -/
theorem C9_note_mode_witness :
    loopStep baseLoop (mkEnv (some "milestone reached")) (CharRead.ch "-") =
      (StepOutcome.cont,
        [Effect.zadd "GetCharLoop:1:notes0" 1234 "milestone reached"]) :=
  C9_note_mode baseLoop (mkEnv (some "milestone reached"))
    "milestone reached" rfl rfl

/-- C10: a command-mode line with no whitespace-separated tokens makes
`user_input.split()[0]` (line 215) index an empty list; the resulting
`IndexError` is raised outside both `try` blocks of the branch, so it
escapes `__call__` and ends the run. -/
theorem C10_empty_split_escapes
    (g : GetCharLoop) (env : Env) (line : String)
    (hot : hotLookup g ":" = none)
    (hline : env.lineInput = some line)
    (hsplit : pySplit line = []) :
    loopStep g env (CharRead.ch ":") = (StepOutcome.crashed indexError, []) ∧
    runLoop g [(env, CharRead.ch ":")] = LoopResult.crashed indexError := by
  have hstep : loopStep g env (CharRead.ch ":") =
      (StepOutcome.crashed indexError, []) := by
    simp [loopStep, hot, hline, hsplit]
  exact ⟨hstep, by simp [runLoop, hstep]⟩

/-- C10 witness: a whitespace-only command line at a plain instance. -/
theorem C10_empty_split_escapes_witness :
    loopStep baseLoop (mkEnv (some "   ")) (CharRead.ch ":") =
      (StepOutcome.crashed indexError, []) ∧
    runLoop baseLoop [(mkEnv (some "   "), CharRead.ch ":")] =
      LoopResult.crashed indexError :=
  C10_empty_split_escapes baseLoop (mkEnv (some "   ")) "   " rfl rfl
    (by decide)

end Chloop
